import Mathlib

/-!
Verification of the query-lowering, type-inference and histogram subsystems of
the `abcd` data-access layer, against a shallow embedding of
`abcd/backends/atoms_pymongo.py` and `abcd/backends/atoms_opensearch.py`.

Python exceptions are modelled with `Except PyErr`; Python `float` values are
modelled as real numbers, Python `int` as `ℤ`, Python `datetime` as a wrapper
around its epoch timestamp.  Functions keep the source names where Lean allows.
-/

namespace Abcd

/-- Exceptions that the embedded code can raise.  `valueError`, `typeError`,
`indexError`, `keyError` and `attributeError` model the built-in Python
exceptions.  `unsupportedPredicateError` and `fieldNotFoundError` model the
error taxonomy named by the specification (their classes live in the
`abcd.errors` module, outside the embedded backend files); the embedded
backend code never raises them, which is what several claims are about. -/
inductive PyErr
  | valueError (msg : String)
  | typeError (msg : String)
  | indexError (msg : String)
  | keyError (msg : String)
  | attributeError (msg : String)
  | unsupportedPredicateError
  | fieldNotFoundError
deriving DecidableEq, Repr

/-! ## The parsed query AST

The query parser produces plain Python tuples `(op, *args)` whose leaves are
strings and numbers; `MongoQuery.visit` dispatches on the first component.
`PyObj` models those tuple trees. -/

inductive PyObj
  | s (v : String)
  | i (v : ℤ)
  | b (v : Bool)
  | tup (xs : List PyObj)

/-- A MongoDB filter document, the value returned by the `MongoQuery` visitor:
a Python dict whose keys are arbitrary (hashable) Python objects and whose
values are nested dicts, lists, or Python objects placed verbatim. -/
inductive MVal
  | obj (o : PyObj)
  | doc (kvs : List (PyObj × MVal))
  | arr (xs : List MVal)

/-- Python `str.lower`. -/
def pyLower (s : String) : String := String.mk (s.toList.map Char.toLower)

/-- Python tuple unpacking `a, b = value` into exactly two names.  A tuple of
any other length raises `ValueError`; a two-character string unpacks into its
characters; other objects raise `TypeError`. -/
def pyUnpack2 : PyObj → Except PyErr (PyObj × PyObj)
  | .tup [x, y] => .ok (x, y)
  | .tup xs =>
      if xs.length < 2 then .error (.valueError "not enough values to unpack (expected 2)")
      else .error (.valueError "too many values to unpack (expected 2)")
  | .s v =>
      match v.toList with
      | [c₁, c₂] => .ok (.s (String.mk [c₁]), .s (String.mk [c₂]))
      | cs =>
          if cs.length < 2 then .error (.valueError "not enough values to unpack (expected 2)")
          else .error (.valueError "too many values to unpack (expected 2)")
  | _ => .error (.typeError "cannot unpack non-iterable object")

/-- Python indexing `value[1]`, as used by the comparison visitors
(`field[1]`, `value[1]`). -/
def pyIndex1 : PyObj → Except PyErr PyObj
  | .tup (_ :: y :: _) => .ok y
  | .tup _ => .error (.indexError "tuple index out of range")
  | .s v =>
      match v.toList with
      | _ :: c :: _ => .ok (.s (String.mk [c]))
      | _ => .error (.indexError "string index out of range")
  | _ => .error (.typeError "object is not subscriptable")

/-- `MongoQuery.visit_name`: `{field: {"$exists": True}}`. -/
def visit_name (field : PyObj) : MVal :=
  .doc [(field, .doc [(.s "$exists", .obj (.b true))])]

/-- `MongoQuery.visit_not`: unpacks the child node as `_, field = value` and
returns `{field: {"$exists": False}}`.  The unpacking succeeds exactly for
two-component values and otherwise raises — it is not an
`UnsupportedPredicateError` path. -/
def visit_not (value : PyObj) : Except PyErr MVal :=
  (pyUnpack2 value).map fun p =>
    .doc [(p.2, .doc [(.s "$exists", .obj (.b false))])]

/-- `MongoQuery.visit_eq`: `{field[1]: value[1]}`. -/
def visit_eq (field value : PyObj) : Except PyErr MVal := do
  let k ← pyIndex1 field
  let v ← pyIndex1 value
  .ok (.doc [(k, .obj v)])

/-- The visitors `visit_re`, `visit_gt`, `visit_gte`, `visit_lt`, `visit_lte`:
`{field[1]: {op: value[1]}}` for the corresponding Mongo operator string. -/
def visit_cmp (op : String) (field value : PyObj) : Except PyErr MVal := do
  let k ← pyIndex1 field
  let v ← pyIndex1 value
  .ok (.doc [(k, .doc [(.s op, .obj v)])])

/-- `MongoQuery.visit_in`: `{field[1]: {"$in": [value[1] for value in values]}}`. -/
def visit_in (field : PyObj) (values : List PyObj) : Except PyErr MVal := do
  let k ← pyIndex1 field
  let vs ← values.mapM pyIndex1
  .ok (.doc [(k, .doc [(.s "$in", .arr (vs.map .obj))])])

mutual

/-- `MongoQuery.visit`: unpacks the node as `op, *args`, looks up the method
`visit_<op.lower()>` (`pyLower` models `str.lower`) and applies it to `args`.  Only `KeyError` is caught in
the source, so the `AttributeError` from an unknown op and any error raised
inside a visitor propagate.  A string dispatches on its first character, which
never names a visitor method. -/
def visit : PyObj → Except PyErr MVal
  | .tup [] => .error (.valueError "not enough values to unpack (expected at least 1)")
  | .tup (op :: args) =>
      match op with
      | .s o =>
          match pyLower o with
          | "name" =>
              match args with
              | [f] => .ok (visit_name f)
              | _ => .error (.typeError "visit_name takes 2 positional arguments")
          | "not" =>
              match args with
              | [v] => visit_not v
              | _ => .error (.typeError "visit_not takes 2 positional arguments")
          | "and" => (visitAll args).map fun xs => .doc [(.s "$and", .arr xs)]
          | "or" => (visitAll args).map fun xs => .doc [(.s "$or", .arr xs)]
          | "eq" =>
              match args with
              | [f, v] => visit_eq f v
              | _ => .error (.typeError "visit_eq takes 3 positional arguments")
          | "re" =>
              match args with
              | [f, v] => visit_cmp "$regex" f v
              | _ => .error (.typeError "visit_re takes 3 positional arguments")
          | "gt" =>
              match args with
              | [f, v] => visit_cmp "$gt" f v
              | _ => .error (.typeError "visit_gt takes 3 positional arguments")
          | "gte" =>
              match args with
              | [f, v] => visit_cmp "$gte" f v
              | _ => .error (.typeError "visit_gte takes 3 positional arguments")
          | "lt" =>
              match args with
              | [f, v] => visit_cmp "$lt" f v
              | _ => .error (.typeError "visit_lt takes 3 positional arguments")
          | "lte" =>
              match args with
              | [f, v] => visit_cmp "$lte" f v
              | _ => .error (.typeError "visit_lte takes 3 positional arguments")
          | "in" =>
              match args with
              | f :: vs => visit_in f vs
              | [] => .error (.typeError "visit_in missing required argument")
          | _ => .error (.attributeError "MongoQuery object has no such visit attribute")
      | _ => .error (.attributeError "object has no attribute lower")
  | .s v =>
      if v.isEmpty then .error (.valueError "not enough values to unpack (expected at least 1)")
      else .error (.attributeError "MongoQuery object has no such visit attribute")
  | _ => .error (.typeError "cannot unpack non-iterable object")

/-- Lowers each child node in turn (the list comprehension inside
`visit_and` / `visit_or`), propagating the first exception. -/
def visitAll : List PyObj → Except PyErr (List MVal)
  | [] => .ok []
  | x :: xs => do
      let m ← visit x
      let ms ← visitAll xs
      .ok (m :: ms)

end

/-! ## Stored Python values and records

`PyVal` models the Python values found in stored documents and passed to
`histogram`.  Python `float`s are modelled as real numbers and `datetime`
objects by the epoch value their `.timestamp()` method returns. -/

/-- A Python `datetime`, identified with its epoch timestamp (seconds).
`datetime.fromtimestamp` is its constructor from a number. -/
structure Datetime where
  timestamp : ℝ
deriving Inhabited

/-- `datetime.fromtimestamp`. -/
def fromtimestamp (x : ℝ) : Datetime := ⟨x⟩

inductive PyVal
  | bool (v : Bool)
  | int (v : ℤ)
  | float (v : ℝ)
  | str (v : String)
  | date (v : Datetime)
  | list (xs : List PyVal)
  | tuple (xs : List PyVal)
  | dict (kvs : List (String × PyVal))
  | none

/-- The Python `type(·)` of a value. -/
inductive PyType
  | bool | int | float | str | date | list | tuple | dict | noneType
deriving DecidableEq, Repr

def pyTypeOf : PyVal → PyType
  | .bool _ => .bool
  | .int _ => .int
  | .float _ => .float
  | .str _ => .str
  | .date _ => .date
  | .list _ => .list
  | .tuple _ => .tuple
  | .dict _ => .dict
  | .none => .noneType

/-- Python `isinstance(v, t)` for the types above.  The only subclass
relation among them is `bool <: int`. -/
def pyIsInstance (v : PyVal) (t : PyType) : Bool :=
  decide (pyTypeOf v = t ∨ (pyTypeOf v = PyType.bool ∧ t = PyType.int))

/-- The module-level `map_types` dict of both backends, keyed by Python type;
a type outside the dict is a `KeyError` at lookup time. -/
def map_types : PyType → Option String
  | .bool => some "bool"
  | .float => some "float"
  | .int => some "int"
  | .str => some "str"
  | .date => some "date"
  | .dict => some "dict"
  | _ => Option.none

/-- `map_types[type(v)]`. -/
def mapTypesGet (v : PyVal) : Except PyErr String :=
  match map_types (pyTypeOf v) with
  | some s => .ok s
  | Option.none => .error (.keyError "type not in map_types")

/-- Python `value[0]`, as used by `get_type_of_property`. -/
def pyIndex0 : PyVal → Except PyErr PyVal
  | .list (x :: _) => .ok x
  | .list [] => .error (.indexError "list index out of range")
  | .tuple (x :: _) => .ok x
  | .tuple [] => .error (.indexError "tuple index out of range")
  | .str v =>
      match v.toList with
      | c :: _ => .ok (.str (String.mk [c]))
      | [] => .error (.indexError "string index out of range")
  | _ => .error (.typeError "object is not subscriptable")

/-- A stored document: a mapping from field names to values. -/
abbrev Record := List (String × PyVal)

/-! ## Type/shape inference -/

/-- `MongoDatabase.get_type_of_property`.  The one-record sample
`find_one({prop: {"$exists": True}})` is modelled as the first record of the
collection in which the field is present; when there is none, `find_one`
returns `None` and the subscript `atoms[prop]` raises `TypeError`. -/
def get_type_of_property (db : List Record) (prop category : String) :
    Except PyErr String :=
  match db.find? (fun r => (r.lookup prop).isSome) with
  | Option.none => .error (.typeError "NoneType object is not subscriptable")
  | some atoms =>
    match atoms.lookup prop with
    | Option.none => .error (.keyError "prop")
    | some data =>
      if category = "arrays" then do
        let d0 ← pyIndex0 data
        match d0 with
        | .list xs => do
            let d00 ← pyIndex0 d0
            let t ← mapTypesGet d00
            .ok ("array(" ++ t ++ ", N x " ++ toString xs.length ++ ")")
        | _ => do
            let t ← mapTypesGet d0
            .ok ("vector(" ++ t ++ ", N)")
      else
        match data with
        | .list _ => do
            let d0 ← pyIndex0 data
            match d0 with
            | .list _ => do
                let d00 ← pyIndex0 d0
                match d00 with
                | .list _ => .ok "list(list(...)"
                | _ => do
                    let t ← mapTypesGet d00
                    .ok ("array(" ++ t ++ ")")
            | _ => do
                let t ← mapTypesGet d0
                .ok ("vector(" ++ t ++ ")")
        | _ => do
            let t ← mapTypesGet data
            .ok ("scalar(" ++ t ++ ")")

/-- `OpenSearchDatabase.get_type_of_property`.  The `size 1` search with an
`exists` query is modelled as taking the first matching record of the index;
an empty hit list makes `hits["hits"][0]` raise `IndexError`.  The shape
branches are the same as the Mongo backend's (it tests `type(·) == list`
instead of `isinstance(·, list)`, which agrees on these values). -/
def os_get_type_of_property (db : List Record) (prop category : String) :
    Except PyErr String :=
  match (db.filter (fun r => (r.lookup prop).isSome)).take 1 with
  | [] => .error (.indexError "list index out of range")
  | atoms :: _ =>
    match atoms.lookup prop with
    | Option.none => .error (.keyError "prop")
    | some data =>
      if category = "arrays" then do
        let d0 ← pyIndex0 data
        match d0 with
        | .list xs => do
            let d00 ← pyIndex0 d0
            let t ← mapTypesGet d00
            .ok ("array(" ++ t ++ ", N x " ++ toString xs.length ++ ")")
        | _ => do
            let t ← mapTypesGet d0
            .ok ("vector(" ++ t ++ ", N)")
      else
        match data with
        | .list _ => do
            let d0 ← pyIndex0 data
            match d0 with
            | .list _ => do
                let d00 ← pyIndex0 d0
                match d00 with
                | .list _ => .ok "list(list(...)"
                | _ => do
                    let t ← mapTypesGet d00
                    .ok ("array(" ++ t ++ ")")
            | _ => do
                let t ← mapTypesGet d0
                .ok ("vector(" ++ t ++ ")")
        | _ => do
            let t ← mapTypesGet data
            .ok ("scalar(" ++ t ++ ")")

/-! ## Numpy primitives used by the histogram builders

Numpy floating-point scalars are idealised as real numbers; `np.std` is the
square root of the population variance, hence the one genuinely real-valued
field below. -/

/-- `min` / `np.ndarray.min` of a list (junk value `default` for the empty
list, on which numpy raises; the callers below guard against it). -/
def listMin {α : Type} [Inhabited α] [LinearOrder α] : List α → α
  | [] => default
  | x :: xs => xs.foldl min x

/-- `max` / `np.ndarray.max` of a list (same convention as `listMin`). -/
def listMax {α : Type} [Inhabited α] [LinearOrder α] : List α → α
  | [] => default
  | x :: xs => xs.foldl max x

/-- `np.ndarray.mean`: the arithmetic mean. -/
noncomputable def npMean (data : List ℝ) : ℝ := data.sum / data.length

/-- `np.ndarray.var`: the population variance. -/
noncomputable def npVar (data : List ℝ) : ℝ :=
  ((data.map fun x => (x - npMean data) ^ 2).sum) / data.length

/-- `np.ndarray.std`: the square root of the population variance. -/
noncomputable def npStd (data : List ℝ) : ℝ := Real.sqrt (npVar data)

/-- `np.histogram(data, bins=k)` for a nonempty `data` and an integer bin
count `k ≥ 1`: `k` equal-width bins spanning `[min, max]` (expanded by half a
unit on each side when all values coincide, as numpy does), each bin
half-open except the last, which is closed.  Returns `(counts, bin_edges)`
with `k` counts and `k + 1` edges. -/
noncomputable def npHistogram (data : List ℝ) (k : ℕ) : List ℕ × List ℝ :=
  let mn := listMin data
  let mx := listMax data
  let lo := if mn = mx then mn - 1 / 2 else mn
  let hi := if mn = mx then mx + 1 / 2 else mx
  let edge : ℕ → ℝ := fun i => lo + (hi - lo) * i / k
  let counts := (List.range k).map fun i =>
    if i + 1 = k then data.countP fun x => decide (edge i ≤ x ∧ x ≤ hi)
    else data.countP fun x => decide (edge i ≤ x ∧ x < edge (i + 1))
  (counts, (List.range (k + 1)).map edge)

/-! ## Histogram results

One structure per `"type"` tag of the dicts returned by the `_hist_*`
builders, with the fields in the order the source builds them. -/

structure HistFloat where
  type : String
  name : String
  bins : ℤ
  edges : List ℝ
  counts : List ℕ
  min : ℝ
  max : ℝ
  median : ℝ
  std : ℝ
  var : ℝ
deriving Inhabited

structure HistInt where
  type : String
  name : String
  bins : ℤ
  edges : List ℝ
  counts : List ℕ
  min : ℤ
  max : ℤ
  median : ℝ
  std : ℝ
  var : ℝ
deriving Inhabited

structure HistDate where
  type : String
  name : String
  bins : ℤ
  edges : List Datetime
  counts : List ℕ
  min : Datetime
  max : Datetime
  median : Datetime
  std : Datetime
  var : Datetime
deriving Inhabited

structure HistStr where
  type : String
  name : String
  total : ℕ
  unique : ℕ
  labels : List String
  counts : List ℕ
deriving DecidableEq, Inhabited, Repr

inductive Hist
  | float (h : HistFloat)
  | int (h : HistInt)
  | str (h : HistStr)
  | date (h : HistDate)

/-! ## The numeric histogram builders -/

/-- `_hist_float(name, data, bins)`.  A `bins` of `None` or `< 1` makes
`np.histogram` raise, as does the (unreachable from `histogram`) empty data
via `data.min()`. -/
noncomputable def _hist_float (name : String) (data : List ℝ) (bins : Option ℤ) :
    Except PyErr HistFloat :=
  match bins with
  | Option.none => .error (.typeError "bins must be an integer")
  | some b =>
    match data with
    | [] => .error (.valueError "zero-size array to reduction operation")
    | _ :: _ =>
      if b < 1 then .error (.valueError "bins must be positive, when an integer")
      else
        let he := npHistogram data b.toNat
        .ok { type := "hist_float", name := name, bins := b,
              edges := he.2, counts := he.1,
              min := listMin data, max := listMax data,
              median := npMean data, std := npStd data, var := npVar data }

/-- `_hist_int(name, data, bins)`: like `_hist_float` but the requested bin
count is first capped at `delta = max(data) - min(data) + 1`, and min/max are
integers.  The empty list raises at `max(data)`, a `None` bin count at the
comparison `bins > delta`. -/
noncomputable def _hist_int (name : String) (data : List ℤ) (bins : Option ℤ) :
    Except PyErr HistInt :=
  match data with
  | [] => .error (.valueError "zero-size array to reduction operation")
  | _ :: _ =>
    let delta : ℤ := listMax data - listMin data + 1
    match bins with
    | Option.none => .error (.typeError "not supported between instances of NoneType and int")
    | some b =>
      let b := if b > delta then delta else b
      if b < 1 then .error (.valueError "bins must be positive, when an integer")
      else
        let rdata : List ℝ := data.map (fun n : ℤ => (n : ℝ))
        let he := npHistogram rdata b.toNat
        .ok { type := "hist_int", name := name, bins := b,
              edges := he.2, counts := he.1,
              min := listMin data, max := listMax data,
              median := npMean rdata, std := npStd rdata, var := npVar rdata }

/-- `_hist_date(name, data, bins)`: runs the float procedure on the epoch
timestamps and pipes every resulting scalar through
`datetime.fromtimestamp`. -/
noncomputable def _hist_date (name : String) (data : List Datetime) (bins : Option ℤ) :
    Except PyErr HistDate :=
  let hist_data := data.map Datetime.timestamp
  match bins with
  | Option.none => .error (.typeError "bins must be an integer")
  | some b =>
    match hist_data with
    | [] => .error (.valueError "zero-size array to reduction operation")
    | _ :: _ =>
      if b < 1 then .error (.valueError "bins must be positive, when an integer")
      else
        let he := npHistogram hist_data b.toNat
        .ok { type := "hist_date", name := name, bins := b,
              edges := he.2.map fromtimestamp, counts := he.1,
              min := fromtimestamp (listMin hist_data),
              max := fromtimestamp (listMax hist_data),
              median := fromtimestamp (npMean hist_data),
              std := fromtimestamp (npStd hist_data),
              var := fromtimestamp (npVar hist_data) }

/-! ## The string histogram builder -/

/-- Python string slice `s[:t]` for an arbitrary integer bound. -/
def pyStrSlice (s : String) (t : ℤ) : String :=
  if 0 ≤ t then s.take t.toNat
  else s.take (s.length - min s.length t.natAbs)

/-- One step of the truncation generator:
`item[:truncate] + "..." if len(item) > truncate else item`. -/
def truncItem (t : ℤ) (item : String) : String :=
  if t < (item.length : ℤ) then pyStrSlice item t ++ "..." else item

/-- The truncation stage of `_hist_str`, guarded by `if truncate:`
(a `None` or `0` truncate is falsy and skips it). -/
def pyTruncStage (truncate : Option ℤ) (data : List String) : List String :=
  match truncate with
  | Option.none => data
  | some t => if t = 0 then data else data.map (truncItem t)

/-- The keys of a Python dict/`Counter` built from `data`, in insertion
(first-occurrence) order. -/
def firstOccurrences (data : List String) : List String :=
  data.foldl (fun acc x => if x ∈ acc then acc else acc ++ [x]) []

/-- `Counter(data).items()`: each distinct value, in first-occurrence order,
with its multiplicity. -/
def counterItems (data : List String) : List (String × ℕ) :=
  (firstOccurrences data).map fun s => (s, data.count s)

/-- Python `<=` on lists of characters, comparing code points
lexicographically, the way CPython compares `str` values. -/
def pyCharListLe : List Char → List Char → Bool
  | [], _ => true
  | _ :: _, [] => false
  | a :: as, b :: bs =>
      if a.toNat < b.toNat then true
      else if b.toNat < a.toNat then false
      else pyCharListLe as bs

/-- Python `a <= b` on strings. -/
def pyStrLe (a b : String) : Bool := pyCharListLe a.toList b.toList

/-- The order in which `sorted(data.items(), key=itemgetter(1, 0),
reverse=True)` lists the counter items: by count descending, then by label
descending (`reverse=True` flips the whole key `(count, label)`). -/
def histStrRel (a b : String × ℕ) : Prop :=
  b.2 < a.2 ∨ (b.2 = a.2 ∧ pyStrLe b.1 a.1 = true)

instance : DecidableRel histStrRel := fun a b => by
  unfold histStrRel; infer_instance

/-- Python list slice `l[:b]` where `b` is an int or `None`. -/
def pySliceList {α : Type} (l : List α) : Option ℤ → List α
  | Option.none => l
  | some n =>
      if 0 ≤ n then l.take n.toNat
      else l.take (l.length - min l.length n.natAbs)

/-- Truthiness of the `bins` keyword (`if bins:`). -/
def binsTruthy : Option ℤ → Bool
  | Option.none => false
  | some b => decide (b ≠ 0)

/-- `_hist_str(name, data, bins=10, truncate=20)`.  `n_unique` is computed
before truncation; the counter items are ranked only when `bins` is truthy;
both branches then unpack `zip(*...)`, which raises on an empty counter, and
the final slices `labels[:bins]`, `counts[:bins]` are applied in all cases. -/
def _hist_str (name : String) (data : List String)
    (bins truncate : Option ℤ) : Except PyErr HistStr :=
  let n_unique := (firstOccurrences data).length
  let tdata := pyTruncStage truncate data
  let items := counterItems tdata
  match items with
  | [] => .error (.valueError "not enough values to unpack (expected 2)")
  | _ :: _ =>
    let ranked := if binsTruthy bins then List.insertionSort histStrRel items else items
    let labels := ranked.map Prod.fst
    let counts := ranked.map Prod.snd
    .ok { type := "hist_str", name := name,
          total := (items.map Prod.snd).sum, unique := n_unique,
          labels := pySliceList labels bins,
          counts := pySliceList counts bins }

/-! ## The histogram dispatcher -/

/-- The keyword arguments accepted by `histogram`: an absent key is the outer
`Option.none`; a key explicitly set to Python `None` is `some Option.none`. -/
structure Kwargs where
  bins : Option (Option ℤ)
  truncate : Option (Option ℤ)

/-- `kwargs.get("bins", 10)`. -/
def Kwargs.binsArg (kw : Kwargs) : Option ℤ := kw.bins.getD (some 10)

/-- The `bins`/`truncate` arguments `_hist_str(name, data, **kwargs)` ends up
with (its own defaults are 10 and 20). -/
def Kwargs.strBinsArg (kw : Kwargs) : Option ℤ := kw.bins.getD (some 10)

def Kwargs.strTruncArg (kw : Kwargs) : Option ℤ := kw.truncate.getD (some 20)

/-- The element extractions feeding the typed builders (the dispatch
guarantees the respective shapes; the fallback values are unreachable).
`np.array` maps Python `bool`s dispatched to `_hist_int` to 0/1. -/
def pyToFloat : PyVal → ℝ
  | .float x => x
  | _ => 0

def pyToInt : PyVal → ℤ
  | .int n => n
  | .bool b => if b then 1 else 0
  | _ => 0

def pyToStr : PyVal → String
  | .str s => s
  | _ => ""

def pyToDate : PyVal → Datetime
  | .date d => d
  | _ => ⟨0⟩

/-- `histogram(name, data, **kwargs)`.  The source's three-step control flow
(`if not data: return None`, `if data and isinstance(data, list): ...`,
final `return None`) collapses to: an empty list and every non-list, falsy or
truthy, return `None`; a non-empty list is checked for homogeneity
(`isinstance(x, type(data[0]))` for every element) and dispatched on the type
of its first element, with unsupported element types returning `None`. -/
noncomputable def histogram (name : String) (data : PyVal) (kw : Kwargs) :
    Except PyErr (Option Hist) :=
  match data with
  | .list (d :: ds) =>
      let l := d :: ds
      if (l.all fun x => pyIsInstance x (pyTypeOf d)) = false then .ok Option.none
      else if pyIsInstance d .float then
        (_hist_float name (l.map pyToFloat) kw.binsArg).map fun h => some (.float h)
      else if pyIsInstance d .int then
        (_hist_int name (l.map pyToInt) kw.binsArg).map fun h => some (.int h)
      else if pyIsInstance d .str then
        (_hist_str name (l.map pyToStr) kw.strBinsArg kw.strTruncArg).map fun h => some (.str h)
      else if pyIsInstance d .date then
        (_hist_date name (l.map pyToDate) kw.binsArg).map fun h => some (.date h)
      else .ok Option.none
  | _ => .ok Option.none

/-! ## Claims about query lowering and type inference -/

/-- C1 (amended): lowering `Not(Name(f))` produces the "field `f` is absent"
filter `{f: {"$exists": False}}`; lowering `Not` of a node that does not
unpack into exactly two components — such as `Not(And(n₁, n₂))` — raises a
tuple-unpacking `ValueError` (not `UnsupportedPredicateError`); and lowering
`Not` of any two-component node silently produces an absence filter keyed by
that node's second component. -/
theorem c1_not_lowering :
    (∀ f : String,
        visit (.tup [.s "NOT", .tup [.s "NAME", .s f]]) =
          .ok (.doc [(.s f, .doc [(.s "$exists", .obj (.b false))])])) ∧
    (∀ a b : PyObj,
        visit (.tup [.s "NOT", .tup [.s "AND", a, b]]) =
          .error (.valueError "too many values to unpack (expected 2)")) ∧
    (∀ x y : PyObj,
        visit_not (.tup [x, y]) =
          .ok (.doc [(y, .doc [(.s "$exists", .obj (.b false))])])) := by
  refine ⟨fun f => ?_, fun a b => ?_, fun x y => rfl⟩
  · simp [visit, visit_not, pyUnpack2, pyLower, Except.map]
  · simp [visit, visit_not, pyUnpack2, pyLower, Except.map]

/-- C1 counterexample: lowering `Not(And(Name "a", Name "b"))` raises the
unpacking `ValueError`, which is not `UnsupportedPredicateError`. -/
theorem c1_not_lowering_cex :
    visit (.tup [.s "NOT",
        .tup [.s "AND", .tup [.s "NAME", .s "a"], .tup [.s "NAME", .s "b"]]]) =
      .error (.valueError "too many values to unpack (expected 2)") ∧
    PyErr.valueError "too many values to unpack (expected 2)" ≠
      PyErr.unsupportedPredicateError := by
  refine ⟨?_, by decide⟩
  simp [visit, visit_not, pyUnpack2, pyLower, Except.map]

/-- C2 (amended): on both backends, type inference on a field sampled as
`[[1,2,3],[4,5,6]]` under category `arrays` returns `"array(int, N x 3)"`
(the outer dimension is reported as the literal letter `N`, only the inner
length is printed), and on a field sampled as `[1,2,3]` it returns
`"vector(int, N)"` (the length is reported as `N`). -/
theorem c2_array_dtype :
    get_type_of_property
        [[("f", PyVal.list [.list [.int 1, .int 2, .int 3], .list [.int 4, .int 5, .int 6]])]]
        "f" "arrays" = .ok "array(int, N x 3)" ∧
    get_type_of_property [[("f", PyVal.list [.int 1, .int 2, .int 3])]]
        "f" "arrays" = .ok "vector(int, N)" ∧
    os_get_type_of_property
        [[("f", PyVal.list [.list [.int 1, .int 2, .int 3], .list [.int 4, .int 5, .int 6]])]]
        "f" "arrays" = .ok "array(int, N x 3)" ∧
    os_get_type_of_property [[("f", PyVal.list [.int 1, .int 2, .int 3])]]
        "f" "arrays" = .ok "vector(int, N)" :=
  ⟨rfl, rfl, rfl, rfl⟩

/-- C2 counterexample: the descriptor for `[[1,2,3],[4,5,6]]` under the
array category is `"array(int, N x 3)"`, not `"array(int, 2×3)"` (and
`[1,2,3]` yields `"vector(int, N)"`, not `"vector(int, 3)"`). -/
theorem c2_array_dtype_cex :
    get_type_of_property
        [[("f", PyVal.list [.list [.int 1, .int 2, .int 3], .list [.int 4, .int 5, .int 6]])]]
        "f" "arrays" = .ok "array(int, N x 3)" ∧
    "array(int, N x 3)" ≠ "array(int, 2×3)" ∧
    get_type_of_property [[("f", PyVal.list [.int 1, .int 2, .int 3])]]
        "f" "arrays" = .ok "vector(int, N)" ∧
    "vector(int, N)" ≠ "vector(int, 3)" :=
  ⟨rfl, by decide, rfl, by decide⟩

/-- C6 (amended): when no record has the queried field present, type
inference fails with an uncaught builtin exception, not with
`FieldNotFoundError`: the Mongo backend subscripts the `None` returned by
`find_one` (`TypeError`), the OpenSearch backend indexes an empty hit list
(`IndexError`). -/
theorem c6_absent_field :
    (∀ (db : List Record) (prop category : String),
        (∀ r ∈ db, r.lookup prop = Option.none) →
        get_type_of_property db prop category =
          .error (.typeError "NoneType object is not subscriptable")) ∧
    (∀ (db : List Record) (prop category : String),
        (∀ r ∈ db, r.lookup prop = Option.none) →
        os_get_type_of_property db prop category =
          .error (.indexError "list index out of range")) := by
  constructor
  · intro db prop category h
    have hf : db.find? (fun r => (r.lookup prop).isSome) = Option.none := by
      rw [List.find?_eq_none]
      intro r hr
      simp [h r hr]
    simp [get_type_of_property, hf]
  · intro db prop category h
    have hf : db.filter (fun r => (r.lookup prop).isSome) = [] := by
      rw [List.filter_eq_nil_iff]
      intro r hr
      simp [h r hr]
    simp [os_get_type_of_property, hf]

theorem c6_absent_field_witness :
    get_type_of_property [] "energy" "info" =
      .error (.typeError "NoneType object is not subscriptable") ∧
    os_get_type_of_property [] "energy" "info" =
      .error (.indexError "list index out of range") :=
  ⟨c6_absent_field.1 [] "energy" "info" (fun r hr => absurd hr (List.not_mem_nil r)),
   c6_absent_field.2 [] "energy" "info" (fun r hr => absurd hr (List.not_mem_nil r))⟩

/-- C6 counterexample: with an empty collection the Mongo backend's type
inference raises `TypeError`, which is not `FieldNotFoundError`. -/
theorem c6_absent_field_cex :
    get_type_of_property [] "energy" "info" =
      .error (.typeError "NoneType object is not subscriptable") ∧
    PyErr.typeError "NoneType object is not subscriptable" ≠
      PyErr.fieldNotFoundError :=
  ⟨rfl, by decide⟩

/-! ## Claims about the histogram dispatcher -/

theorem npHistogram_counts_length (d : List ℝ) (k : ℕ) :
    (npHistogram d k).1.length = k := by
  simp [npHistogram]

/-- C4: `histogram` maps an empty list to `None`, and maps a list whose
elements are not all instances of the first element's type to `None`; both
are ordinary returns, not exceptions (`.ok`, not `.error`). -/
theorem c4_mixed_none :
    (∀ (name : String) (kw : Kwargs),
        histogram name (.list []) kw = .ok Option.none) ∧
    (∀ (name : String) (kw : Kwargs) (d : PyVal) (ds : List PyVal),
        (∃ x ∈ d :: ds, pyIsInstance x (pyTypeOf d) = false) →
        histogram name (.list (d :: ds)) kw = .ok Option.none) := by
  refine ⟨fun name kw => rfl, fun name kw d ds hx => ?_⟩
  have hall : ((d :: ds).all fun x => pyIsInstance x (pyTypeOf d)) = false := by
    rcases hx with ⟨x, hmem, hfalse⟩
    exact List.all_eq_false.mpr ⟨x, hmem, by simp [hfalse]⟩
  simp [histogram, hall]

theorem c4_mixed_none_witness :
    histogram "n" (.list [.int 1, .str "x", .float 2]) ⟨Option.none, Option.none⟩ =
      .ok Option.none :=
  c4_mixed_none.2 "n" ⟨Option.none, Option.none⟩ (.int 1) [.str "x", .float 2]
    ⟨.str "x", List.mem_cons_of_mem _ (List.mem_cons_self _ _), rfl⟩

/-- C10: any value that is not a Python list — scalars, tuples, strings,
`None`, dicts — makes `histogram` return `None` without raising; only
(non-empty) lists reach the type-specific builders. -/
theorem c10_nonlist_none :
    ∀ (name : String) (kw : Kwargs) (v : PyVal),
      (∀ xs : List PyVal, v ≠ .list xs) →
      histogram name v kw = .ok Option.none := by
  intro name kw v hv
  cases v with
  | list xs => exact absurd rfl (hv xs)
  | bool b => rfl
  | int n => rfl
  | float x => rfl
  | str s => rfl
  | date d => rfl
  | tuple _ => rfl
  | dict _ => rfl
  | none => rfl

theorem c10_nonlist_none_witness :
    histogram "n" (.tuple [.int 1, .int 2]) ⟨Option.none, Option.none⟩ =
      .ok Option.none :=
  c10_nonlist_none "n" ⟨Option.none, Option.none⟩ (.tuple [.int 1, .int 2])
    (fun _ h => PyVal.noConfusion h)

/-- C7: whenever `_hist_int` returns a histogram, the number of bins it
contains is at most the value span `max - min + 1` and at most the requested
bin count. -/
theorem c7_int_bin_cap :
    ∀ (name : String) (data : List ℤ) (b : ℤ) (h : HistInt),
      _hist_int name data (some b) = .ok h →
      (h.counts.length : ℤ) ≤ listMax data - listMin data + 1 ∧
      (h.counts.length : ℤ) ≤ b := by
  intro name data b h hok
  cases data with
  | nil => simp [_hist_int] at hok
  | cons d ds =>
    simp only [_hist_int] at hok
    set delta := listMax (d :: ds) - listMin (d :: ds) + 1 with hdelta
    set b' := if b > delta then delta else b with hb'
    have hble : b' ≤ delta ∧ b' ≤ b := by
      rw [hb']; split <;> omega
    by_cases hlt : b' < 1
    · rw [if_pos hlt] at hok
      exact absurd hok (by simp)
    · rw [if_neg hlt] at hok
      rw [Except.ok.injEq] at hok
      subst hok
      simp only [npHistogram_counts_length]
      rw [Int.toNat_of_nonneg (by omega)]
      exact ⟨hble.1, hble.2⟩

theorem c7_int_bin_cap_witness :
    (((_hist_int "n" [1, 2, 5] (some 10)).toOption.get!.counts.length : ℤ) ≤
        listMax [1, 2, 5] - listMin [1, 2, 5] + 1 ∧
      ((_hist_int "n" [1, 2, 5] (some 10)).toOption.get!.counts.length : ℤ) ≤ 10) :=
  c7_int_bin_cap "n" [1, 2, 5] 10 ((_hist_int "n" [1, 2, 5] (some 10)).toOption.get!) rfl

/-- C8: the `"median"` field of both the float and the integer histogram is
the arithmetic mean `sum / length` of the data, and on `[0, 0, 3]` — whose
true median is 0 — that field is the mean 1. -/
theorem c8_median_is_mean :
    (∀ (name : String) (data : List ℝ) (b : ℤ) (h : HistFloat),
        _hist_float name data (some b) = .ok h →
        h.median = data.sum / data.length) ∧
    (∀ (name : String) (data : List ℤ) (b : ℤ) (h : HistInt),
        _hist_int name data (some b) = .ok h →
        h.median = (data.map (fun n : ℤ => (n : ℝ))).sum / data.length) ∧
    (_hist_float "e" [0, 0, 3] (some 10)).toOption.get!.median = 1 := by
  refine ⟨fun name data b h hok => ?_, fun name data b h hok => ?_, ?_⟩
  · cases data with
    | nil => simp [_hist_float] at hok
    | cons d ds =>
      simp only [_hist_float] at hok
      split at hok
      · exact absurd hok (by simp)
      · rw [Except.ok.injEq] at hok
        subst hok
        rfl
  · cases data with
    | nil => simp [_hist_int] at hok
    | cons d ds =>
      simp only [_hist_int] at hok
      set delta := listMax (d :: ds) - listMin (d :: ds) + 1 with hdelta
      set b' := if b > delta then delta else b with hb'
      by_cases hlt : b' < 1
      · rw [if_pos hlt] at hok
        exact absurd hok (by simp)
      · rw [if_neg hlt] at hok
        rw [Except.ok.injEq] at hok
        subst hok
        simp [npMean]
  · show npMean [0, 0, 3] = 1
    unfold npMean
    norm_num

theorem c8_median_is_mean_witness :
    (_hist_float "n" [1, 2] (some 2)).toOption.get!.median =
      ([1, 2] : List ℝ).sum / ([1, 2] : List ℝ).length :=
  c8_median_is_mean.1 "n" [1, 2] 2 ((_hist_float "n" [1, 2] (some 2)).toOption.get!) rfl

/-- C9: whenever the date histogram and the float histogram on the epoch
timestamps both succeed, every scalar of the former — the bin edges, min,
max, the mean stored as `"median"`, the standard deviation and the
variance — is the `datetime.fromtimestamp` image of the corresponding float
histogram scalar, and the bin counts agree. -/
theorem c9_date_roundtrip :
    ∀ (name : String) (data : List Datetime) (b : ℤ) (hd : HistDate) (hf : HistFloat),
      _hist_date name data (some b) = .ok hd →
      _hist_float name (data.map Datetime.timestamp) (some b) = .ok hf →
      hd.counts = hf.counts ∧
      hd.edges = hf.edges.map fromtimestamp ∧
      hd.min = fromtimestamp hf.min ∧
      hd.max = fromtimestamp hf.max ∧
      hd.median = fromtimestamp hf.median ∧
      hd.std = fromtimestamp hf.std ∧
      hd.var = fromtimestamp hf.var := by
  intro name data b hd hf hdok hfok
  cases data with
  | nil => simp [_hist_date] at hdok
  | cons x xs =>
    simp only [_hist_date, List.map_cons] at hdok
    simp only [_hist_float, List.map_cons] at hfok
    split at hdok
    · exact absurd hdok (by simp)
    · rename_i hb
      rw [if_neg hb] at hfok
      rw [Except.ok.injEq] at hdok hfok
      subst hdok
      subst hfok
      exact ⟨rfl, rfl, rfl, rfl, rfl, rfl, rfl⟩

theorem c9_date_roundtrip_witness :
    ((_hist_date "n" [⟨0⟩, ⟨10⟩] (some 2)).toOption.get!.counts =
        (_hist_float "n" (([⟨0⟩, ⟨10⟩] : List Datetime).map Datetime.timestamp)
            (some 2)).toOption.get!.counts ∧
      (_hist_date "n" [⟨0⟩, ⟨10⟩] (some 2)).toOption.get!.median =
        fromtimestamp
          ((_hist_float "n" (([⟨0⟩, ⟨10⟩] : List Datetime).map Datetime.timestamp)
              (some 2)).toOption.get!.median)) := by
  have h := c9_date_roundtrip "n" [⟨0⟩, ⟨10⟩] 2
    ((_hist_date "n" [⟨0⟩, ⟨10⟩] (some 2)).toOption.get!)
    ((_hist_float "n" (([⟨0⟩, ⟨10⟩] : List Datetime).map Datetime.timestamp)
        (some 2)).toOption.get!) rfl rfl
  exact ⟨h.1, h.2.2.2.2.1⟩

/-! ## Claims about the string histogram -/

theorem pyCharListLe_total : ∀ as bs : List Char,
    pyCharListLe as bs = true ∨ pyCharListLe bs as = true := by
  intro as
  induction as with
  | nil => intro bs; exact Or.inl rfl
  | cons a as ih =>
    intro bs
    cases bs with
    | nil => exact Or.inr rfl
    | cons b bs =>
      simp only [pyCharListLe]
      rcases Nat.lt_trichotomy a.toNat b.toNat with h | h | h
      · rw [if_pos h]; exact Or.inl rfl
      · rw [if_neg (by omega), if_neg (by omega), if_neg (by omega), if_neg (by omega)]
        exact ih bs
      · rw [if_neg (by omega), if_pos h, if_pos h]
        exact Or.inr rfl

theorem pyCharListLe_trans : ∀ as bs cs : List Char,
    pyCharListLe as bs = true → pyCharListLe bs cs = true →
    pyCharListLe as cs = true := by
  intro as
  induction as with
  | nil => intro bs cs _ _; rfl
  | cons a as ih =>
    intro bs cs h1 h2
    cases bs with
    | nil => simp [pyCharListLe] at h1
    | cons b bs =>
      cases cs with
      | nil => simp [pyCharListLe] at h2
      | cons c cs =>
        simp only [pyCharListLe] at h1 h2 ⊢
        rcases Nat.lt_trichotomy a.toNat b.toNat with hab | hab | hab <;>
          rcases Nat.lt_trichotomy b.toNat c.toNat with hbc | hbc | hbc
        · rw [if_pos (by omega)]
        · rw [if_pos (by omega)]
        · rw [if_neg (by omega), if_pos hbc] at h2
          exact absurd h2 (by simp)
        · rw [if_pos (by omega)]
        · rw [if_neg (by omega : ¬a.toNat < b.toNat),
            if_neg (by omega : ¬b.toNat < a.toNat)] at h1
          rw [if_neg (by omega : ¬b.toNat < c.toNat),
            if_neg (by omega : ¬c.toNat < b.toNat)] at h2
          rw [if_neg (by omega : ¬a.toNat < c.toNat),
            if_neg (by omega : ¬c.toNat < a.toNat)]
          exact ih bs cs h1 h2
        · rw [if_neg (by omega), if_pos hbc] at h2
          exact absurd h2 (by simp)
        · rw [if_neg (by omega), if_pos hab] at h1
          exact absurd h1 (by simp)
        · rw [if_neg (by omega), if_pos hab] at h1
          exact absurd h1 (by simp)
        · rw [if_neg (by omega), if_pos hab] at h1
          exact absurd h1 (by simp)

instance : IsTotal (String × ℕ) histStrRel where
  total a b := by
    unfold histStrRel
    rcases lt_trichotomy a.2 b.2 with h | h | h
    · exact Or.inr (Or.inl h)
    · rcases pyCharListLe_total a.1.toList b.1.toList with hs | hs
      · exact Or.inr (Or.inr ⟨h, hs⟩)
      · exact Or.inl (Or.inr ⟨h.symm, hs⟩)
    · exact Or.inl (Or.inl h)

instance : IsTrans (String × ℕ) histStrRel where
  trans a b c hab hbc := by
    unfold histStrRel at hab hbc ⊢
    rcases hab with h1 | ⟨h1, h1'⟩ <;> rcases hbc with h2 | ⟨h2, h2'⟩
    · exact Or.inl (h2.trans h1)
    · exact Or.inl (h2 ▸ h1)
    · exact Or.inl (h1 ▸ h2)
    · exact Or.inr ⟨h2.trans h1, pyCharListLe_trans _ _ _ h2' h1'⟩

theorem pySliceList_sublist {α : Type} (l : List α) (b : Option ℤ) :
    List.Sublist (pySliceList l b) l := by
  cases b with
  | none => exact List.Sublist.refl l
  | some n =>
    simp only [pySliceList]
    split <;> exact List.take_sublist _ _

theorem pySliceList_map {α β : Type} (f : α → β) (l : List α) (b : Option ℤ) :
    pySliceList (l.map f) b = (pySliceList l b).map f := by
  cases b with
  | none => rfl
  | some n =>
    simp only [pySliceList, List.length_map]
    split <;> rw [List.map_take]

/-- Slicing the unzipped label/count columns and re-pairing them recovers the
slice of the item list itself. -/
theorem zip_slice_eq (items : List (String × ℕ)) (b : Option ℤ) :
    (pySliceList (items.map Prod.fst) b).zip (pySliceList (items.map Prod.snd) b) =
      pySliceList items b := by
  rw [pySliceList_map, pySliceList_map, List.zip_map']
  simp

theorem counterItems_count {data : List String} {p : String × ℕ}
    (hp : p ∈ counterItems data) : p.2 = data.count p.1 := by
  rcases List.mem_map.mp hp with ⟨s, _, rfl⟩
  rfl

/-- C3 (amended): whenever the string histogram ranks (truthy `bins`), the
reported label/count pairs are sorted by count descending with label
descending — not ascending — as the tie-break, each reported count is the
multiplicity of its label in the truncated data, and on
`["a","a","b","c","c","c"]` with `bins = 2` the labels are `["c","a"]` with
counts `[3,2]` (the claim's example is insensitive to the tie-break
direction). -/
theorem c3_str_ranking :
    (∀ (name : String) (data : List String) (b t : ℤ) (h : HistStr),
        b ≠ 0 →
        _hist_str name data (some b) (some t) = .ok h →
        (h.labels.zip h.counts).Sorted histStrRel ∧
        h.counts = h.labels.map fun s => (pyTruncStage (some t) data).count s) ∧
    _hist_str "s" ["a", "a", "b", "c", "c", "c"] (some 2) (some 20) =
      .ok ⟨"hist_str", "s", 6, 3, ["c", "a"], [3, 2]⟩ := by
  constructor
  · intro name data b t h hb hok
    simp only [_hist_str] at hok
    split at hok
    · exact absurd hok (by simp)
    · rename_i head tail heq
      have hbt : binsTruthy (some b) = true := by simp [binsTruthy, hb]
      rw [hbt] at hok
      simp only [if_true] at hok
      rw [Except.ok.injEq] at hok
      subst hok
      constructor
      · rw [zip_slice_eq]
        exact List.Pairwise.sublist (pySliceList_sublist _ _)
          (List.sorted_insertionSort histStrRel _)
      · rw [pySliceList_map, pySliceList_map, List.map_map]
        refine List.map_congr_left fun p hp => ?_
        have hmem : p ∈ counterItems (pyTruncStage (some t) data) :=
          (List.mem_insertionSort histStrRel).mp
            ((pySliceList_sublist _ _).subset hp)
        simp only [Function.comp_apply]
        exact counterItems_count hmem
  · rfl

theorem c3_str_ranking_witness :
    ((((_hist_str "w" ["a", "b"] (some 2) (some 20)).toOption.get!.labels.zip
        (_hist_str "w" ["a", "b"] (some 2) (some 20)).toOption.get!.counts).Sorted
          histStrRel) ∧
      (_hist_str "w" ["a", "b"] (some 2) (some 20)).toOption.get!.counts =
        (_hist_str "w" ["a", "b"] (some 2) (some 20)).toOption.get!.labels.map
          fun s => (pyTruncStage (some 20) ["a", "b"]).count s) :=
  c3_str_ranking.1 "w" ["a", "b"] 2 20
    ((_hist_str "w" ["a", "b"] (some 2) (some 20)).toOption.get!)
    (by decide) rfl

/-- C3 counterexample: the two equal-count labels `"a"`, `"b"` are reported
as `["b","a"]` — count descending, label descending — whereas a (count
descending, label ascending) ranking would report `["a","b"]`. -/
theorem c3_str_ranking_cex :
    _hist_str "s" ["a", "b"] (some 2) (some 20) =
      .ok ⟨"hist_str", "s", 2, 2, ["b", "a"], [1, 1]⟩ ∧
    (["b", "a"] : List String) ≠ ["a", "b"] :=
  ⟨by rfl, by decide⟩

/-- C5 (amended): with a falsy `bins` the counter items are left unranked and
the final python slice `labels[:bins]` is still applied, so `bins=None`
reports every distinct (truncated) label with its count in first-occurrence
order, while `bins=0` reports no labels and no counts at all. -/
theorem c5_bins_falsy :
    (∀ (name : String) (data : List String) (t : Option ℤ) (h : HistStr),
        _hist_str name data Option.none t = .ok h →
        h.labels = (counterItems (pyTruncStage t data)).map Prod.fst ∧
        h.counts = (counterItems (pyTruncStage t data)).map Prod.snd) ∧
    (∀ (name : String) (data : List String) (t : Option ℤ) (h : HistStr),
        _hist_str name data (some 0) t = .ok h →
        h.labels = [] ∧ h.counts = []) := by
  constructor
  · intro name data t h hok
    simp only [_hist_str] at hok
    split at hok
    · exact absurd hok (by simp)
    · rename_i head tail heq
      simp only [binsTruthy, Bool.false_eq_true, if_false] at hok
      rw [Except.ok.injEq] at hok
      subst hok
      rw [heq]
      exact ⟨rfl, rfl⟩
  · intro name data t h hok
    simp only [_hist_str] at hok
    split at hok
    · exact absurd hok (by simp)
    · rename_i head tail heq
      rw [Except.ok.injEq] at hok
      subst hok
      constructor <;>
        simp [pySliceList]

theorem c5_bins_falsy_witness :
    ((_hist_str "w" ["a", "b", "a"] Option.none (some 20)).toOption.get!.labels =
        (counterItems (pyTruncStage (some 20) ["a", "b", "a"])).map Prod.fst ∧
      (_hist_str "w" ["a", "b", "a"] Option.none (some 20)).toOption.get!.counts =
        (counterItems (pyTruncStage (some 20) ["a", "b", "a"])).map Prod.snd) ∧
    ((_hist_str "w" ["a", "b", "a"] (some 0) (some 20)).toOption.get!.labels = [] ∧
      (_hist_str "w" ["a", "b", "a"] (some 0) (some 20)).toOption.get!.counts = []) :=
  ⟨c5_bins_falsy.1 "w" ["a", "b", "a"] (some 20)
      ((_hist_str "w" ["a", "b", "a"] Option.none (some 20)).toOption.get!) rfl,
    c5_bins_falsy.2 "w" ["a", "b", "a"] (some 20)
      ((_hist_str "w" ["a", "b", "a"] (some 0) (some 20)).toOption.get!) rfl⟩

/-- C5 counterexample: with `bins = 0` (falsy) on data `["a"]` the histogram
reports no labels at all instead of the full label list `["a"]`. -/
theorem c5_bins_falsy_cex :
    _hist_str "s" ["a"] (some 0) (some 20) =
      .ok ⟨"hist_str", "s", 1, 1, [], []⟩ ∧
    ([] : List String) ≠ ["a"] :=
  ⟨by rfl, by decide⟩

end Abcd
